import Mathlib

/-!
Verification of the query-safety gate, query executor, result formatter and
chat orchestrator of a natural-language-to-SQL chatbot service
(`src/services/sql_service.py` and `src/services/chat_service.py`),
shallowly embedded in Lean 4.

Python strings are embedded as `List Char`; the Python string primitives the
service uses (`upper`, `strip`, `in`, `count`, `startswith`, `rstrip`) are
reproduced as executable Lean functions below.  The database engine and the
external text-generation collaborator are abstract parameters, as the spec
treats them (opaque capabilities with an input/output contract).
-/

deriving instance DecidableEq for Except

namespace AIChatbot

/-- Python strings, embedded as lists of characters. -/
abbrev Str := List Char

/-- Bridge from Lean string literals to the embedding. -/
def str (s : String) : Str := s.toList

/-- Python `s.upper()` (ASCII case folding, which covers every keyword the
service compares against). -/
def pyUpper (s : Str) : Str := s.map Char.toUpper

/-- Whitespace predicate used by Python `str.strip()` (ASCII whitespace). -/
def pyWs (c : Char) : Bool := c.isWhitespace

/-- Python `s.lstrip()`. -/
def pyLstrip (s : Str) : Str := s.dropWhile pyWs

/-- Python `s.rstrip()`. -/
def pyRstrip (s : Str) : Str := (s.reverse.dropWhile pyWs).reverse

/-- Python `s.strip()`. -/
def pyStrip (s : Str) : Str := pyRstrip (pyLstrip s)

/-- Python `s.rstrip(";")`: remove trailing semicolon characters. -/
def rstripSemi (s : Str) : Str := (s.reverse.dropWhile (fun c => c == ';')).reverse

/-- Python `pat in s` (substring containment). -/
def strContains : Str → Str → Bool
  | [], pat => pat.isEmpty
  | a :: rest, pat => pat.isPrefixOf (a :: rest) || strContains rest pat

/-- Worker for `countOccs`; the fuel argument (always at least the length of
the scanned string) makes the recursion structural, so that it reduces. -/
def countOccsAux (pat : Str) : Nat → Str → Nat
  | 0, _ => 0
  | _ + 1, [] => 0
  | fuel + 1, c :: rest =>
    if pat.isPrefixOf (c :: rest) then
      1 + countOccsAux pat fuel (rest.drop (pat.length - 1))
    else
      countOccsAux pat fuel rest

/-- Python `s.count(pat)`: number of non-overlapping occurrences of `pat`
in `s`, scanning left to right. -/
def countOccs (pat s : Str) : Nat := countOccsAux pat s.length s

/-- Decimal rendering of a natural number, as Python `str(n)` / f-string
interpolation produces it. -/
def natToStr (n : Nat) : Str := str (toString n)

/-- `SQLService.FORBIDDEN_KEYWORDS` (sql_service.py lines 32-35).  In the
source this is a Python `set`, whose iteration order is unspecified; it is
embedded as a list in the order the source writes the elements. -/
def FORBIDDEN_KEYWORDS : List Str :=
  [str "DROP", str "DELETE", str "UPDATE", str "INSERT", str "ALTER",
   str "CREATE", str "TRUNCATE", str "EXEC", str "EXECUTE", str "GRANT",
   str "REVOKE", str "UNION", str "--", str ";"]

/-- The message raised for a forbidden keyword
(`f"Forbidden SQL keyword detected: {forbidden}"`). -/
def forbiddenMsg (t : Str) : Str := str "Forbidden SQL keyword detected: " ++ t

/-- `SQLService.validate_sql` (sql_service.py lines 78-103).  A raised
`SQLServiceError` is embedded as `Except.error` carrying the message. -/
def validate_sql (sql : Str) : Except Str Unit :=
  let sql_upper := pyStrip (pyUpper sql)
  match FORBIDDEN_KEYWORDS.find? (fun t => strContains sql_upper t) with
  | some t => .error (forbiddenMsg t)
  | none =>
    if (str "SELECT").isPrefixOf sql_upper = false then
      .error (str "Only SELECT queries are allowed")
    else if strContains sql (str ";") || decide (countOccs (str "SELECT") sql > 1) then
      .error (str "Multiple statements not allowed")
    else if strContains sql_upper (str "FROM") = false then
      .error (str "SQL must contain FROM clause")
    else if strContains sql_upper (str "UBER_TRIPS") = false then
      .error (str "Query must reference uber_trips table")
    else .ok ()

/-- One result row: ordered (column name, rendered scalar value) pairs, as a
Python dict in insertion order with values taken at their string rendering. -/
abbrev Row := List (Str × Str)

/-- The dictionary `execute_query` returns on success
(sql_service.py lines 135-140). -/
structure QueryResult where
  success : Bool
  data : List Row
  row_count : Nat
  columns : List Str
  deriving DecidableEq, Repr

/-- Abstract storage engine: executing one SQL text against a store yields
either column names and rows, or an engine error (SQLAlchemy error text),
together with the store afterwards. -/
structure DBEngine (TStore : Type) where
  run : Str → TStore → Except Str (List Str × List Row) × TStore

/-- The SQL text `execute_query` actually sends to the engine
(sql_service.py lines 120-123): if the uppercased text does not contain the
substring `LIMIT`, append a `LIMIT` clause with the configured cap. -/
def effective_sql (sql : Str) (limit : Nat) : Str :=
  if strContains (pyUpper sql) (str "LIMIT") then sql
  else rstripSemi sql ++ str " LIMIT " ++ natToStr limit

/-- `SQLService.execute_query` (sql_service.py lines 105-149): validate,
append the safety limit when absent, run the statement, package the rows.
Validation errors and engine errors are both surfaced as `Except.error`
(both are `SQLServiceError` to the caller). -/
def execute_query {TStore : Type} (eng : DBEngine TStore) (st : TStore)
    (sql : Str) (limit : Nat := 1000) : Except Str QueryResult × TStore :=
  match validate_sql sql with
  | .error e => (.error e, st)
  | .ok _ =>
    match eng.run (effective_sql sql limit) st with
    | (.ok (cols, rows), st') =>
      (.ok { success := true, data := rows, row_count := rows.length,
             columns := cols }, st')
    | (.error e, st') => (.error (str "SQL execution failed: " ++ e), st')

/-- `SQLService.format_results_for_llm` (sql_service.py lines 151-172). -/
def format_results_for_llm (results : QueryResult) : Str :=
  if results.success = false ∨ results.data = [] then str "No results found."
  else
    let lines : List Str :=
      [str "Query returned " ++ natToStr results.row_count ++ str " rows.",
       str "Columns: " ++ List.intercalate (str ", ") results.columns,
       str ""]
      ++ (List.enumFrom 1 (results.data.take 10)).flatMap
          (fun p => (str "Row " ++ natToStr p.1 ++ str ":")
            :: p.2.map (fun cv => str "  " ++ cv.1 ++ str ": " ++ cv.2)
            ++ [str ""])
      ++ (if results.row_count > 10 then
            [str "... and " ++ natToStr (results.row_count - 10) ++ str " more rows"]
          else [])
    List.intercalate (str "\n") lines

/-- One persisted conversation turn (a `Message` row): role tag and text. -/
structure Msg where
  role : Str
  content : Str
  deriving DecidableEq, Repr

/-- The session/message store: session identifiers mapped to their message
lists in creation order (`created_at` ascending equals append order). -/
abbrev SessionStore := List (Str × List Msg)

/-- Look up the message list of a session (`SessionService.get_session` plus
its messages); `none` means the session row does not exist. -/
def lookupS (sid : Str) : SessionStore → Option (List Msg)
  | [] => none
  | (i, ms) :: rest => if i = sid then some ms else lookupS sid rest

/-- `SessionService.create_session` restricted to a given identifier: if the
session already exists it is returned unchanged, otherwise an empty session
row is added (session_service.py lines 24-53). -/
def createS (sid : Str) (ss : SessionStore) : SessionStore :=
  if (lookupS sid ss).isSome then ss else ss ++ [(sid, [])]

/-- `SessionService.add_message` (session_service.py lines 65-111): append
one message to the session, creating the session row if it is missing. -/
def appendMsg (sid : Str) (m : Msg) : SessionStore → SessionStore
  | [] => [(sid, [m])]
  | (i, ms) :: rest =>
    if i = sid then (i, ms ++ [m]) :: rest else (i, ms) :: appendMsg sid m rest

/-- Step 5 of `ChatService.process_message` (chat_service.py lines 77-80 and
106-109): `if session_id:` store the user turn then the assistant turn.  An
empty identifier is falsy in Python, hence the guard. -/
def persist_turns (sid : Str) (userMsg assistantMsg : Msg) (ss : SessionStore) :
    SessionStore :=
  if sid = [] then ss else appendMsg sid assistantMsg (appendMsg sid userMsg ss)

/-- Session resolution at the top of `ChatService.process_message`
(chat_service.py lines 42-52): a truthy caller-provided identifier is used
(created when missing); otherwise a new session is created under a fresh
identifier (the model's stand-in for `uuid.uuid4()`). -/
def resolve_session (freshId : Str) (sessionId? : Option Str)
    (ss : SessionStore) : Str × SessionStore :=
  match sessionId? with
  | some id => if id = [] then (freshId, createS freshId ss)
               else (id, createS id ss)
  | none => (freshId, createS freshId ss)

/-- Combined mutable state the orchestrator touches: the trip storage the
query executor reads and the session/message store. -/
structure ChatState (TStore : Type) where
  trips : TStore
  sessions : SessionStore

/-- Environment of one `process_message` call: the schema lookup (which can
raise `SQLServiceError`), the two opaque text-generation calls, the storage
engine and the fresh session identifier.  Each collaborator is a fixed
outcome for the single call being modelled. -/
structure ChatEnv (TStore : Type) where
  schema_info : Except Str Unit
  gen_sql : Except Str Str
  eng : DBEngine TStore
  gen_response : QueryResult → Except Str Str
  gen_response_err : Str → Except Str Str
  fresh_id : Str

/-- The dictionary `ChatService.process_message` returns.  A field of type
`Option` set to `none` in `session_id` or `query_results` or `error` means
the key is absent from the returned dictionary; `sql_query := none` means
the key is present with value `None` (the key appears on every path). -/
structure ChatOutcome where
  success : Bool
  response : Str
  session_id : Option Str
  sql_query : Option Str
  error : Option Str
  query_results : Option (Nat × List Str)
  deriving DecidableEq, Repr

/-- The fallback template of chat_service.py line 122. -/
def fallbackResponse (e : Str) : Str :=
  str "I encountered an error processing your query: " ++ e ++
    str ". Please try rephrasing your question."

/-- The `except SQLServiceError` handler (chat_service.py lines 93-125):
ask the text generator to explain the error; on its success persist both
turns and return a failure outcome carrying the session identifier; if the
secondary call itself throws, return the fixed template outcome, which has
no `session_id` key, and persist nothing. -/
def handle_sql_error {TStore : Type} (env : ChatEnv TStore)
    (user_message e : Str) (sid : Str) (st : ChatState TStore) :
    ChatOutcome × ChatState TStore :=
  match env.gen_response_err e with
  | .ok errorResponse =>
    ({ success := false, response := errorResponse, session_id := some sid,
       sql_query := none, error := some e, query_results := none },
     ⟨st.trips, persist_turns sid ⟨str "user", user_message⟩
        ⟨str "assistant", errorResponse⟩ st.sessions⟩)
  | .error _ =>
    ({ success := false, response := fallbackResponse e, session_id := none,
       sql_query := none, error := some e, query_results := none }, st)

/-- The outcome of the outer `except Exception` handler
(chat_service.py lines 127-134). -/
def unexpectedOutcome (e : Str) : ChatOutcome :=
  { success := false,
    response := str "I'm sorry, I encountered an unexpected error. Please try again.",
    session_id := none, sql_query := none, error := some e,
    query_results := none }

/-- `ChatService.process_message` (chat_service.py lines 24-134): resolve
the session, fetch the schema, generate SQL, execute it, generate the prose
answer, persist both turns, and package the outcome; `SQLServiceError`s go
through `handle_sql_error` and any other exception yields the generic
unexpected-error outcome. -/
def process_message {TStore : Type} (env : ChatEnv TStore)
    (user_message : Str) (sessionId? : Option Str) (st : ChatState TStore) :
    ChatOutcome × ChatState TStore :=
  let r := resolve_session env.fresh_id sessionId? st.sessions
  let sid := r.1
  let st1 : ChatState TStore := ⟨st.trips, r.2⟩
  match env.schema_info with
  | .error e => handle_sql_error env user_message e sid st1
  | .ok _ =>
    match env.gen_sql with
    | .error e => (unexpectedOutcome e, st1)
    | .ok sql_query =>
      match execute_query env.eng st1.trips sql_query 1000 with
      | (.error e, trips') =>
        handle_sql_error env user_message e sid ⟨trips', st1.sessions⟩
      | (.ok query_results, trips') =>
        let st2 : ChatState TStore := ⟨trips', st1.sessions⟩
        match env.gen_response query_results with
        | .error e => (unexpectedOutcome e, st2)
        | .ok response_text =>
          ({ success := true, response := response_text,
             session_id := some sid, sql_query := some sql_query,
             error := none,
             query_results := some (query_results.row_count,
                                    query_results.columns) },
           ⟨st2.trips, persist_turns sid ⟨str "user", user_message⟩
              ⟨str "assistant", response_text⟩ st2.sessions⟩)

/-! ### Lemmas about the string primitives -/

theorem strContains_iff (s pat : Str) : strContains s pat = true ↔ pat <:+: s := by
  induction s with
  | nil =>
    simp [strContains, List.isEmpty_iff, List.infix_nil]
  | cons a rest ih =>
    simp [strContains, List.infix_cons_iff, ih, List.isPrefixOf_iff_prefix]

theorem infix_dropWhile_of_head (p : Char → Bool) (c : Char) (t s : Str)
    (hc : p c = false) (h : (c :: t) <:+: s) : (c :: t) <:+: s.dropWhile p := by
  induction s with
  | nil => simp at h
  | cons a s2 ih =>
    by_cases ha : p a = true
    · rw [List.dropWhile_cons_of_pos ha]
      apply ih
      rcases List.infix_cons_iff.mp h with hpre | hinf
      · rcases hpre with ⟨u, hu⟩
        rw [List.cons_append] at hu
        injection hu with h1 h2
        rw [h1] at hc
        rw [ha] at hc
        simp at hc
      · exact hinf
    · rw [List.dropWhile_cons_of_neg ha]
      exact h

theorem infix_pyLstrip (t s : Str) (hne : t ≠ [])
    (hws : ∀ c ∈ t, pyWs c = false) (h : t <:+: s) : t <:+: pyLstrip s := by
  cases t with
  | nil => exact absurd rfl hne
  | cons c t' =>
    exact infix_dropWhile_of_head pyWs c t' s (hws c (by simp)) h

theorem infix_pyRstrip (t s : Str) (hne : t ≠ [])
    (hws : ∀ c ∈ t, pyWs c = false) (h : t <:+: s) : t <:+: pyRstrip s := by
  have hrev : t.reverse <:+: s.reverse := List.reverse_infix.mpr h
  have hne2 : t.reverse ≠ [] := by simpa using hne
  cases ht : t.reverse with
  | nil => exact absurd ht hne2
  | cons d r =>
    have hd : d ∈ t := by
      have : d ∈ t.reverse := by rw [ht]; simp
      simpa using this
    rw [ht] at hrev
    have hdrop : (d :: r) <:+: s.reverse.dropWhile pyWs :=
      infix_dropWhile_of_head pyWs d r s.reverse (hws d hd) hrev
    rw [← ht] at hdrop
    unfold pyRstrip
    exact List.reverse_infix.mp (by rw [List.reverse_reverse]; exact hdrop)

theorem strContains_pyStrip (t s : Str) (hne : t ≠ [])
    (hws : ∀ c ∈ t, pyWs c = false)
    (h : strContains s t = true) : strContains (pyStrip s) t = true := by
  rw [strContains_iff] at h ⊢
  exact infix_pyRstrip t (pyLstrip s) hne hws (infix_pyLstrip t s hne hws h)

theorem strContains_pyUpper_fixed (t s : Str) (hfix : pyUpper t = t)
    (h : strContains s t = true) : strContains (pyUpper s) t = true := by
  rw [strContains_iff] at h ⊢
  have hm := List.IsInfix.map Char.toUpper h
  rw [show t.map Char.toUpper = t from hfix] at hm
  exact hm

/-- Every forbidden keyword is nonempty and free of whitespace, so the
`upper`/`strip` preprocessing cannot destroy an occurrence of it. -/
theorem forbidden_keywords_wf :
    ∀ t ∈ FORBIDDEN_KEYWORDS, t ≠ [] ∧ ∀ c ∈ t, pyWs c = false := by decide

/-- If some forbidden keyword occurs in the scanned text, `validate_sql`
stops at the forbidden-keyword scan: it rejects with a message naming a
forbidden keyword that does occur in the scanned text, and no later check
ever reports. -/
theorem validate_sql_forbidden (sql t : Str)
    (ht : t ∈ FORBIDDEN_KEYWORDS)
    (hc : strContains (pyStrip (pyUpper sql)) t = true) :
    ∃ u, u ∈ FORBIDDEN_KEYWORDS ∧
      strContains (pyStrip (pyUpper sql)) u = true ∧
      validate_sql sql = .error (forbiddenMsg u) := by
  have hsome :
      (FORBIDDEN_KEYWORDS.find? (fun u => strContains (pyStrip (pyUpper sql)) u)).isSome := by
    rw [List.find?_isSome]
    exact ⟨t, ht, hc⟩
  obtain ⟨u, hu⟩ := Option.isSome_iff_exists.mp hsome
  refine ⟨u, List.mem_of_find?_eq_some hu, List.find?_some hu, ?_⟩
  unfold validate_sql
  simp only [hu]

/-! ### Lemmas about the session store -/

theorem lookupS_append (id : Str) (ss ts : SessionStore) :
    lookupS id (ss ++ ts) =
      if (lookupS id ss).isSome then lookupS id ss else lookupS id ts := by
  induction ss with
  | nil => simp [lookupS]
  | cons h rest ih =>
    obtain ⟨i, msgs⟩ := h
    by_cases hi : i = id <;> simp [lookupS, hi, ih]

theorem lookupS_createS_self (sid : Str) (ss : SessionStore) :
    lookupS sid (createS sid ss) = some ((lookupS sid ss).getD []) := by
  cases hls : lookupS sid ss with
  | some ms => simp [createS, hls]
  | none => simp [createS, hls, lookupS_append, lookupS]

theorem lookupS_createS (sid id : Str) (ss : SessionStore) (ms : List Msg)
    (h : lookupS id (createS sid ss) = some ms) :
    ms = [] ∨ lookupS id ss = some ms := by
  unfold createS at h
  by_cases hs : (lookupS sid ss).isSome
  · rw [if_pos hs] at h
    exact Or.inr h
  · rw [if_neg hs, lookupS_append] at h
    by_cases hid : (lookupS id ss).isSome
    · rw [if_pos hid] at h
      exact Or.inr h
    · rw [if_neg hid] at h
      by_cases heq : sid = id
      · simp [lookupS, heq] at h
        exact Or.inl h
      · simp [lookupS, heq] at h

theorem lookupS_appendMsg_self (sid : Str) (m : Msg) (ss : SessionStore) :
    lookupS sid (appendMsg sid m ss) = some ((lookupS sid ss).getD [] ++ [m]) := by
  induction ss with
  | nil => simp [appendMsg, lookupS]
  | cons h rest ih =>
    obtain ⟨i, msgs⟩ := h
    by_cases hi : i = sid
    · subst hi
      simp [appendMsg, lookupS]
    · simp [appendMsg, lookupS, hi, ih]

theorem lookupS_persist_turns (sid : Str) (um am : Msg) (ss : SessionStore)
    (h : sid ≠ []) :
    lookupS sid (persist_turns sid um am ss) =
      some ((lookupS sid ss).getD [] ++ [um, am]) := by
  unfold persist_turns
  rw [if_neg h, lookupS_appendMsg_self, lookupS_appendMsg_self]
  simp

/-- A semicolon in the raw SQL string survives the uppercasing and the
stripping and is therefore seen by the forbidden-keyword scan. -/
theorem semi_in_scanned (sql : Str) (h : strContains sql (str ";") = true) :
    strContains (pyStrip (pyUpper sql)) (str ";") = true :=
  strContains_pyStrip _ _ (by decide) (by decide)
    (strContains_pyUpper_fixed _ _ (by decide) h)

/-- A string the validator accepts contains no semicolon at all: one would
have been caught by the forbidden-keyword scan. -/
theorem validate_sql_ok_no_semi (sql : Str) (h : validate_sql sql = .ok ()) :
    strContains sql (str ";") = false := by
  cases hcs : strContains sql (str ";") with
  | false => rfl
  | true =>
    obtain ⟨u, _, _, hu⟩ :=
      validate_sql_forbidden sql (str ";") (by decide) (semi_in_scanned sql hcs)
    rw [hu] at h
    simp at h

theorem dropWhile_eq_self_of_all (p : Char → Bool) (l : Str)
    (h : ∀ c ∈ l, p c = false) : l.dropWhile p = l := by
  cases l with
  | nil => rfl
  | cons a t =>
    rw [List.dropWhile_cons_of_neg]
    simp [h a (by simp)]

theorem semi_not_mem (s : Str) (h : strContains s (str ";") = false) :
    ';' ∉ s := by
  intro hc
  obtain ⟨l1, l2, hs⟩ := List.append_of_mem hc
  have hinf : str ";" <:+: s :=
    ⟨l1, l2, by rw [hs, show str ";" = [';'] from rfl]; simp⟩
  rw [← strContains_iff, h] at hinf
  simp at hinf

/-- On a string without semicolons, `rstrip(";")` is the identity. -/
theorem rstripSemi_eq_self (s : Str) (h : strContains s (str ";") = false) :
    rstripSemi s = s := by
  unfold rstripSemi
  rw [dropWhile_eq_self_of_all, List.reverse_reverse]
  intro c hc
  have hmem : c ∈ s := by simpa using hc
  have hne : c ≠ ';' := fun he => (semi_not_mem s h) (he ▸ hmem)
  simp [hne]

/-! ### Auxiliary definitions for the claim theorems -/

/-- The deny-list exactly as the spec enumerates it (`--` is not on it). -/
def specDenyList : List Str :=
  [str "DROP", str "DELETE", str "UPDATE", str "INSERT", str "ALTER",
   str "CREATE", str "TRUNCATE", str "GRANT", str "REVOKE", str "EXEC",
   str "EXECUTE", str ";", str "UNION"]

theorem spec_deny_subset : ∀ t ∈ specDenyList, t ∈ FORBIDDEN_KEYWORDS := by decide

/-- A storage engine that answers every statement with zero rows and never
changes its (trivial) store; used to instantiate the executor theorems. -/
def unitEng : DBEngine Unit := ⟨fun _ st => (.ok ([], []), st)⟩

/-- The executor's row cap, as an assumption on the storage engine: a
statement carrying an appended `LIMIT n` clause returns at most `n` rows. -/
def LimitRespecting {TStore : Type} (eng : DBEngine TStore) : Prop :=
  ∀ q n st cols rows st',
    eng.run (q ++ str " LIMIT " ++ natToStr n) st = (.ok (cols, rows), st') →
    rows.length ≤ n

theorem unitEng_limitRespecting : LimitRespecting unitEng := by
  intro q n st cols rows st' h
  unfold unitEng at h
  simp at h
  rw [h.2]
  exact Nat.zero_le n

/-! ### Claim theorems -/

/-- C2: every SQL string containing a deny-listed token of the spec's list
(case-insensitively — the hypothesis speaks about the uppercased text — and
at any position) is rejected by `validate_sql` with a message naming the
matched forbidden token, which itself occurs in the scanned text.  Because
the conclusion pins the error to the forbidden-keyword message for every
such string, no later check can be the one that reports: the deny-list scan
runs before all other validation checks. -/
theorem c2_denylist_rejects (sql t : Str)
    (ht : t ∈ specDenyList)
    (hc : strContains (pyUpper sql) t = true) :
    ∃ u, u ∈ FORBIDDEN_KEYWORDS ∧
      strContains (pyStrip (pyUpper sql)) u = true ∧
      validate_sql sql = .error (forbiddenMsg u) := by
  have hmem : t ∈ FORBIDDEN_KEYWORDS := spec_deny_subset t ht
  obtain ⟨hne, hws⟩ := forbidden_keywords_wf t hmem
  exact validate_sql_forbidden sql t hmem
    (strContains_pyStrip t (pyUpper sql) hne hws hc)

theorem c2_witness :
    ∃ u, u ∈ FORBIDDEN_KEYWORDS ∧
      strContains (pyStrip (pyUpper (str "drop table uber_trips"))) u = true ∧
      validate_sql (str "drop table uber_trips") = .error (forbiddenMsg u) :=
  c2_denylist_rejects (str "drop table uber_trips") (str "DROP")
    (by decide) (by decide)

/-- C6: the executor validates before executing; on any validator rejection
it returns the same error (a `SQLServiceError`, the single error kind the
orchestrator sees) and the storage state is returned untouched.  The
conclusion holds for every engine `eng`, so the engine is never consulted
on this path: no statement reaches storage. -/
theorem c6_validation_before_execution {TStore : Type} (eng : DBEngine TStore)
    (st : TStore) (sql e : Str) (h : validate_sql sql = .error e) :
    execute_query eng st sql 1000 = (.error e, st) := by
  unfold execute_query
  rw [h]

theorem c6_witness :
    execute_query unitEng () (str "DROP TABLE trips") 1000 =
      (.error (forbiddenMsg (str "DROP")), ()) :=
  c6_validation_before_execution unitEng () (str "DROP TABLE trips")
    (forbiddenMsg (str "DROP")) (by decide)

/-- C1: for every SQL string the validator accepts whose text does not
already contain a row-limiting clause (formalised as the code's own test:
the uppercased text has no `LIMIT` substring), the executor appends
` LIMIT 1000` — the configured row cap, `limit`'s default — to the
statement it sends to the engine, and for any engine that honours an
appended `LIMIT n` clause the `row_count` of the returned result never
exceeds the cap, independently of the query (which, under the hypothesis,
specifies no limit of its own). -/
theorem c1_row_cap {TStore : Type} (eng : DBEngine TStore) (st : TStore)
    (sql : Str)
    (hlr : LimitRespecting eng)
    (hok : validate_sql sql = .ok ())
    (hnl : strContains (pyUpper sql) (str "LIMIT") = false) :
    effective_sql sql 1000 = sql ++ str " LIMIT " ++ str "1000" ∧
    ∀ qr st', execute_query eng st sql 1000 = (.ok qr, st') →
      qr.row_count ≤ 1000 := by
  have heff : effective_sql sql 1000 =
      rstripSemi sql ++ str " LIMIT " ++ natToStr 1000 := by
    unfold effective_sql
    rw [if_neg]
    simp [hnl]
  refine ⟨by
    rw [heff, rstripSemi_eq_self sql (validate_sql_ok_no_semi sql hok)]
    rfl, ?_⟩
  intro qr st' h
  unfold execute_query at h
  rw [hok] at h
  rcases hrun : eng.run (effective_sql sql 1000) st with ⟨res, st2⟩
  rw [hrun] at h
  cases res with
  | error e => simp at h
  | ok pr =>
    obtain ⟨cols, rows⟩ := pr
    simp at h
    rw [heff] at hrun
    have hle := hlr (rstripSemi sql) 1000 st cols rows st2 hrun
    rw [← h.1]
    exact hle

theorem c1_witness :
    effective_sql (str "SELECT * FROM uber_trips") 1000 =
      str "SELECT * FROM uber_trips" ++ str " LIMIT " ++ str "1000" ∧
    (QueryResult.mk true [] 0 []).row_count ≤ 1000 :=
  ⟨(c1_row_cap unitEng () (str "SELECT * FROM uber_trips")
      unitEng_limitRespecting (by decide) (by decide)).1,
   (c1_row_cap unitEng () (str "SELECT * FROM uber_trips")
      unitEng_limitRespecting (by decide) (by decide)).2
     ⟨true, [], 0, []⟩ () (by decide)⟩

/-- C7 counterexample: the input `DROP TABLE trips` does not begin with
`SELECT` after trimming and case-folding, yet `validate_sql` rejects it
with the forbidden-keyword message naming `DROP`, not with the
not-a-read-query reason the claim requires for every such string: the
deny-list scan runs first. -/
theorem c7_counterexample :
    (str "SELECT").isPrefixOf (pyStrip (pyUpper (str "DROP TABLE trips"))) = false ∧
    validate_sql (str "DROP TABLE trips") = .error (forbiddenMsg (str "DROP")) ∧
    forbiddenMsg (str "DROP") ≠ str "Only SELECT queries are allowed" := by
  decide

/-- C7 amended: for every SQL string containing no forbidden token (so the
deny-list scan, which runs first, does not fire) and not beginning with
`SELECT` after trimming and case-folding, validation rejects with the
reason that only SELECT queries are allowed. -/
theorem c7_only_select (sql : Str)
    (hclean : ∀ u, u ∈ FORBIDDEN_KEYWORDS →
      strContains (pyStrip (pyUpper sql)) u = false)
    (hsel : (str "SELECT").isPrefixOf (pyStrip (pyUpper sql)) = false) :
    validate_sql sql = .error (str "Only SELECT queries are allowed") := by
  have hfind : FORBIDDEN_KEYWORDS.find?
      (fun u => strContains (pyStrip (pyUpper sql)) u) = none := by
    rw [List.find?_eq_none]
    intro u hu
    simp [hclean u hu]
  unfold validate_sql
  simp [hfind, hsel]

theorem c7_witness :
    validate_sql (str "SHOW TABLES") =
      .error (str "Only SELECT queries are allowed") :=
  c7_only_select (str "SHOW TABLES") (by decide) (by decide)

/-- C3 counterexample: `SELECT * FROM uber_trips;` contains a semicolon, so
the claim demands the multiple-statements reason, but the validator rejects
it with the forbidden-keyword message naming `;` — the deny-list scan
(whose set contains `;`) fires before the multiple-statements check ever
runs. -/
theorem c3_counterexample :
    strContains (str "SELECT * FROM uber_trips;") (str ";") = true ∧
    validate_sql (str "SELECT * FROM uber_trips;") =
      .error (forbiddenMsg (str ";")) ∧
    forbiddenMsg (str ";") ≠ str "Multiple statements not allowed" := by
  decide

/-- C3 amended: every SQL string containing a `;` or two occurrences of
`SELECT` is rejected by the validator, but the reason is "Multiple
statements not allowed" only when no forbidden token occurs in the scanned
text and the trimmed uppercased string begins with `SELECT`; a `;` always
triggers the earlier forbidden-keyword rejection instead, naming a
forbidden token. -/
theorem c3_multiple_statements (sql : Str)
    (h : strContains sql (str ";") = true ∨ 1 < countOccs (str "SELECT") sql) :
    (∃ e, validate_sql sql = .error e) ∧
    (strContains sql (str ";") = true →
      ∃ u, u ∈ FORBIDDEN_KEYWORDS ∧
        validate_sql sql = .error (forbiddenMsg u)) ∧
    ((∀ u, u ∈ FORBIDDEN_KEYWORDS →
        strContains (pyStrip (pyUpper sql)) u = false) →
      (str "SELECT").isPrefixOf (pyStrip (pyUpper sql)) = true →
      validate_sql sql = .error (str "Multiple statements not allowed")) := by
  have hmult : (∀ u, u ∈ FORBIDDEN_KEYWORDS →
      strContains (pyStrip (pyUpper sql)) u = false) →
      (str "SELECT").isPrefixOf (pyStrip (pyUpper sql)) = true →
      validate_sql sql = .error (str "Multiple statements not allowed") := by
    intro hclean hsel
    have hfind : FORBIDDEN_KEYWORDS.find?
        (fun u => strContains (pyStrip (pyUpper sql)) u) = none := by
      rw [List.find?_eq_none]
      intro u hu
      simp [hclean u hu]
    have hnosemi : strContains sql (str ";") = false := by
      cases hcs : strContains sql (str ";") with
      | false => rfl
      | true =>
        have hsc := semi_in_scanned sql hcs
        rw [hclean (str ";") (by decide)] at hsc
        simp at hsc
    have hcnt : 1 < countOccs (str "SELECT") sql := by
      rcases h with h1 | h2
      · rw [hnosemi] at h1
        simp at h1
      · exact h2
    unfold validate_sql
    simp [hfind, hsel, hnosemi, hcnt]
  refine ⟨?_, fun hs => ?_, hmult⟩
  · cases hfind : FORBIDDEN_KEYWORDS.find?
        (fun u => strContains (pyStrip (pyUpper sql)) u) with
    | some u =>
      exact ⟨forbiddenMsg u, by unfold validate_sql; simp only [hfind]⟩
    | none =>
      have hclean : ∀ u, u ∈ FORBIDDEN_KEYWORDS →
          strContains (pyStrip (pyUpper sql)) u = false := by
        rw [List.find?_eq_none] at hfind
        intro u hu
        simpa using hfind u hu
      cases hsel : (str "SELECT").isPrefixOf (pyStrip (pyUpper sql)) with
      | true => exact ⟨_, hmult hclean hsel⟩
      | false =>
        exact ⟨str "Only SELECT queries are allowed",
          by unfold validate_sql; simp [hfind, hsel]⟩
  · obtain ⟨u, hu1, _, hu3⟩ :=
      validate_sql_forbidden sql (str ";") (by decide) (semi_in_scanned sql hs)
    exact ⟨u, hu1, hu3⟩

theorem c3_witness :
    validate_sql (str "SELECT x FROM uber_trips SELECT y") =
      .error (str "Multiple statements not allowed") :=
  (c3_multiple_statements (str "SELECT x FROM uber_trips SELECT y")
    (Or.inr (by decide))).2.2 (by decide) (by decide)

/-- C10: the validator also rejects every SQL string containing `--` (the
SQL comment marker), a token of the code's forbidden set that the spec's
deny-list omits; the rejection names a forbidden token occurring in the
scanned text, and names `--` itself whenever no other forbidden token
occurs. -/
theorem c10_comment_marker_rejected (sql : Str)
    (h : strContains sql (str "--") = true) :
    str "--" ∈ FORBIDDEN_KEYWORDS ∧
    (∃ u, u ∈ FORBIDDEN_KEYWORDS ∧
      strContains (pyStrip (pyUpper sql)) u = true ∧
      validate_sql sql = .error (forbiddenMsg u)) ∧
    ((∀ u, u ∈ FORBIDDEN_KEYWORDS → u ≠ str "--" →
        strContains (pyStrip (pyUpper sql)) u = false) →
      validate_sql sql = .error (forbiddenMsg (str "--"))) := by
  have hscan : strContains (pyStrip (pyUpper sql)) (str "--") = true :=
    strContains_pyStrip _ _ (by decide) (by decide)
      (strContains_pyUpper_fixed _ _ (by decide) h)
  have hex := validate_sql_forbidden sql (str "--") (by decide) hscan
  refine ⟨by decide, hex, ?_⟩
  intro honly
  obtain ⟨u, hu1, hu2, hu3⟩ := hex
  by_cases hu : u = str "--"
  · rw [hu] at hu3
    exact hu3
  · rw [honly u hu1 hu] at hu2
    simp at hu2

theorem c10_witness :
    validate_sql (str "SELECT a FROM uber_trips -- note") =
      .error (forbiddenMsg (str "--")) :=
  (c10_comment_marker_rejected (str "SELECT a FROM uber_trips -- note")
    (by decide)).2.2 (by decide)

/-- C8: formatting a failed or zero-row result always yields exactly the
literal "No results found.", and formatting is deterministic: the same
result (the formatter's `maxRows` is the fixed constant 10 at its one call
site) formats to identical output. -/
theorem c8_no_results :
    (∀ r : QueryResult, r.success = false ∨ r.data = [] →
      format_results_for_llm r = str "No results found.") ∧
    (∀ r1 r2 : QueryResult, r1 = r2 →
      format_results_for_llm r1 = format_results_for_llm r2) := by
  constructor
  · intro r hr
    unfold format_results_for_llm
    rw [if_pos hr]
  · intro r1 r2 h
    rw [h]

theorem c8_witness :
    format_results_for_llm ⟨true, [], 5, [str "a"]⟩ = str "No results found." ∧
    format_results_for_llm ⟨false, [], 0, []⟩ = str "No results found." :=
  ⟨c8_no_results.1 ⟨true, [], 5, [str "a"]⟩ (Or.inr rfl),
   c8_no_results.1 ⟨false, [], 0, []⟩ (Or.inl rfl)⟩

/-- Modelled from the spec: the fixed layout of section 4.3, header lines
stating total row count and the column names. -/
def spec_header (r : QueryResult) : List Str :=
  [str "Query returned " ++ natToStr r.row_count ++ str " rows.",
   str "Columns: " ++ List.intercalate (str ", ") r.columns,
   str ""]

/-- Modelled from the spec: one displayed row, rendered as its index line
followed by `column: value` pairs, then a blank separator line. -/
def spec_render_row (p : Nat × Row) : List Str :=
  (str "Row " ++ natToStr p.1 ++ str ":")
    :: p.2.map (fun cv => str "  " ++ cv.1 ++ str ": " ++ cv.2)
    ++ [str ""]

/-- Modelled from the spec: the trailing note naming exactly
`row_count - maxRows` omitted rows whenever `row_count > maxRows`. -/
def spec_omitted_note (maxRows : Nat) (r : QueryResult) : List Str :=
  if r.row_count > maxRows then
    [str "... and " ++ natToStr (r.row_count - maxRows) ++ str " more rows"]
  else []

/-- Modelled from the spec: `format(result, maxRows)` of section 4.3 — a
header, at most `maxRows` rendered rows, and the omitted-rows note, joined
by newlines. -/
def spec_format (maxRows : Nat) (r : QueryResult) : Str :=
  List.intercalate (str "\n")
    (spec_header r
      ++ (List.enumFrom 1 (r.data.take maxRows)).flatMap spec_render_row
      ++ spec_omitted_note maxRows r)

/-- C9: on every successful, non-empty result the formatter produces
exactly the layout the spec describes, instantiated at `maxRows = 10` (the
constant hard-coded at the LLM-formatting call site), and displays at most
`maxRows` rows. -/
theorem c9_layout (r : QueryResult) (hs : r.success = true)
    (hd : r.data ≠ []) :
    format_results_for_llm r = spec_format 10 r ∧
    (r.data.take 10).length ≤ 10 := by
  constructor
  · unfold format_results_for_llm spec_format spec_header spec_render_row
      spec_omitted_note
    rw [if_neg]
    rintro (h1 | h2)
    · rw [hs] at h1
      simp at h1
    · exact hd h2
  · rw [List.length_take]
    exact Nat.min_le_left _ _

theorem c9_witness :
    format_results_for_llm
        ⟨true, [[(str "a", str "1"), (str "b", str "x")]], 1,
          [str "a", str "b"]⟩ =
      spec_format 10
        ⟨true, [[(str "a", str "1"), (str "b", str "x")]], 1,
          [str "a", str "b"]⟩ :=
  (c9_layout _ rfl (by decide)).1

/-- Concrete single-call environment in which SQL generation produces a
forbidden statement and the secondary error-explanation call throws. -/
def failEnv : ChatEnv Unit :=
  { schema_info := .ok ()
  , gen_sql := .ok (str "DROP TABLE trips")
  , eng := unitEng
  , gen_response := fun _ => .ok (str "answer")
  , gen_response_err := fun _ => .error (str "boom")
  , fresh_id := str "S" }

/-- Concrete single-call environment in which every collaborator succeeds. -/
def freshEnv : ChatEnv Unit :=
  { schema_info := .ok ()
  , gen_sql := .ok (str "SELECT * FROM uber_trips")
  , eng := unitEng
  , gen_response := fun _ => .ok (str "answer")
  , gen_response_err := fun _ => .ok (str "sorry")
  , fresh_id := str "S" }

/-- C4 counterexample: when the secondary error-explanation call throws,
the returned outcome does carry the fixed template embedding the failure
reason, `success = false` and a null `sql_query` — but its `session_id` key
is absent (chat_service.py lines 120-125 omit it), contradicting the
claim that the outcome contains the session identifier. -/
theorem c4_counterexample :
    (process_message failEnv (str "hi") (some (str "abc"))
        ⟨(), [(str "abc", [])]⟩).1 =
      { success := false
      , response := fallbackResponse (forbiddenMsg (str "DROP"))
      , session_id := none
      , sql_query := none
      , error := some (forbiddenMsg (str "DROP"))
      , query_results := none } ∧
    (process_message failEnv (str "hi") (some (str "abc"))
        ⟨(), [(str "abc", [])]⟩).1.session_id ≠ some (str "abc") := by
  decide

/-- C4 amended: whenever the pipeline fails with a `SQLServiceError` whose
text is `e` and the secondary error-explanation call throws, the
orchestrator returns (does not raise) the outcome holding the fixed
template embedding `e`, with `success = false` and `sql_query = null`, but
without the `session_id` key; no user or assistant message is persisted on
that path (the final store only adds, at most, the empty session row the
call created on entry). -/
theorem c4_fallback_template {TStore : Type} (env : ChatEnv TStore)
    (u sid : Str) (st : ChatState TStore) (q e ex : Str) (trips' : TStore)
    (hsid : sid ≠ [])
    (hschema : env.schema_info = .ok ())
    (hsql : env.gen_sql = .ok q)
    (hexec : execute_query env.eng st.trips q 1000 = (.error e, trips'))
    (herr : env.gen_response_err e = .error ex) :
    process_message env u (some sid) st =
      ({ success := false
       , response := fallbackResponse e
       , session_id := none
       , sql_query := none
       , error := some e
       , query_results := none },
       ⟨trips', createS sid st.sessions⟩) ∧
    (∀ id ms, lookupS id (createS sid st.sessions) = some ms →
      ms = [] ∨ lookupS id st.sessions = some ms) := by
  constructor
  · simp only [process_message, resolve_session, if_neg hsid, hschema, hsql,
      hexec, handle_sql_error, herr]
  · exact fun id ms h => lookupS_createS sid id st.sessions ms h

theorem c4_witness :
    process_message failEnv (str "hi") (some (str "abc"))
        ⟨(), [(str "abc", [])]⟩ =
      ({ success := false
       , response := fallbackResponse (forbiddenMsg (str "DROP"))
       , session_id := none
       , sql_query := none
       , error := some (forbiddenMsg (str "DROP"))
       , query_results := none },
       ⟨(), createS (str "abc") [(str "abc", [])]⟩) :=
  (c4_fallback_template failEnv (str "hi") (str "abc")
    ⟨(), [(str "abc", [])]⟩ (str "DROP TABLE trips")
    (forbiddenMsg (str "DROP")) (str "boom") ()
    (by decide) rfl rfl (by decide) rfl).1

/-- C5: on the success path and on the handled-failure path (secondary
error-explanation call succeeds) the orchestrator appends exactly one user
turn and one assistant turn to the session's history — for a caller-named
existing session its prior history gains exactly those two turns, and for a
call with no session the orchestrator creates a fresh identifier (returned
in the outcome) whose history afterwards is exactly one user turn followed
by one assistant turn. -/
theorem c5_two_turns_persisted {TStore : Type} (env : ChatEnv TStore)
    (u : Str) (st : ChatState TStore) (q : Str)
    (hschema : env.schema_info = .ok ())
    (hsql : env.gen_sql = .ok q) :
    (∀ sid prior qr trips' resp, sid ≠ [] →
      lookupS sid st.sessions = some prior →
      execute_query env.eng st.trips q 1000 = (.ok qr, trips') →
      env.gen_response qr = .ok resp →
      lookupS sid (process_message env u (some sid) st).2.sessions =
        some (prior ++ [⟨str "user", u⟩, ⟨str "assistant", resp⟩])) ∧
    (∀ sid prior e trips' resp, sid ≠ [] →
      lookupS sid st.sessions = some prior →
      execute_query env.eng st.trips q 1000 = (.error e, trips') →
      env.gen_response_err e = .ok resp →
      lookupS sid (process_message env u (some sid) st).2.sessions =
        some (prior ++ [⟨str "user", u⟩, ⟨str "assistant", resp⟩])) ∧
    (∀ qr trips' resp, env.fresh_id ≠ [] →
      lookupS env.fresh_id st.sessions = none →
      execute_query env.eng st.trips q 1000 = (.ok qr, trips') →
      env.gen_response qr = .ok resp →
      (process_message env u none st).1.session_id = some env.fresh_id ∧
      lookupS env.fresh_id (process_message env u none st).2.sessions =
        some [⟨str "user", u⟩, ⟨str "assistant", resp⟩]) ∧
    (∀ e trips' resp, env.fresh_id ≠ [] →
      lookupS env.fresh_id st.sessions = none →
      execute_query env.eng st.trips q 1000 = (.error e, trips') →
      env.gen_response_err e = .ok resp →
      (process_message env u none st).1.session_id = some env.fresh_id ∧
      lookupS env.fresh_id (process_message env u none st).2.sessions =
        some [⟨str "user", u⟩, ⟨str "assistant", resp⟩]) := by
  refine ⟨?_, ?_, ?_, ?_⟩
  · intro sid prior qr trips' resp hsid hprior hexec hresp
    simp only [process_message, resolve_session, if_neg hsid, hschema, hsql,
      hexec, hresp]
    rw [lookupS_persist_turns _ _ _ _ hsid, lookupS_createS_self, hprior]
    rfl
  · intro sid prior e trips' resp hsid hprior hexec hresp
    simp only [process_message, resolve_session, if_neg hsid, hschema, hsql,
      hexec, handle_sql_error, hresp]
    rw [lookupS_persist_turns _ _ _ _ hsid, lookupS_createS_self, hprior]
    rfl
  · intro qr trips' resp hfresh hnone hexec hresp
    constructor
    · simp only [process_message, resolve_session, hschema, hsql, hexec,
        hresp]
    · simp only [process_message, resolve_session, hschema, hsql, hexec,
        hresp]
      rw [lookupS_persist_turns _ _ _ _ hfresh, lookupS_createS_self, hnone]
      rfl
  · intro e trips' resp hfresh hnone hexec hresp
    constructor
    · simp only [process_message, resolve_session, hschema, hsql, hexec,
        handle_sql_error, hresp]
    · simp only [process_message, resolve_session, hschema, hsql, hexec,
        handle_sql_error, hresp]
      rw [lookupS_persist_turns _ _ _ _ hfresh, lookupS_createS_self, hnone]
      rfl

theorem c5_witness :
    (process_message freshEnv (str "hi") none ⟨(), []⟩).1.session_id =
      some (str "S") ∧
    lookupS (str "S")
        (process_message freshEnv (str "hi") none ⟨(), []⟩).2.sessions =
      some [⟨str "user", str "hi"⟩, ⟨str "assistant", str "answer"⟩] :=
  (c5_two_turns_persisted freshEnv (str "hi") ⟨(), []⟩
      (str "SELECT * FROM uber_trips") rfl rfl).2.2.1
    ⟨true, [], 0, []⟩ () (str "answer") (by decide) rfl (by decide) rfl

end AIChatbot
